import Mathlib

/-!
Verification of the ostrich-talks backend scoring / reward / streak /
league / quest pipeline, shallowly embedded from
`backend/src/routes/lessons.js`, `backend/src/routes/leagues.js`,
`backend/src/routes/auth.js` and the Mongoose models
(`backend/src/models`).

Modelling conventions:
* JavaScript numbers that only ever hold nonnegative integers are `Nat`;
  the league-point input, which the route compares against 0, is `Int`.
* `Math.round` on the nonnegative values used here is round-half-up,
  `⌊x + 1/2⌋`, modelled exactly on rationals `a / b` by `roundDiv`.
* Timestamps (`Date`) are milliseconds since the epoch (`Nat`); the
  calendar-day projection `getFullYear/getMonth/getDate` is modelled as
  `t / 86400000` with the reference timezone fixed to UTC.
* `toLowerCase().trim()` is modelled character-wise on the underlying
  character list (ASCII lowering, whitespace trimming at both ends).
* Fallible routes return `Except` with one constructor per `AppError`
  thrown by the source.
-/

namespace OstrichTalks

/-- JavaScript `Math.round (a / b)` for natural `a`, `b` (nonnegative
values round half up): `⌊a/b + 1/2⌋ = (2a + b) / (2b)` in natural
division. -/
def roundDiv (a b : Nat) : Nat := (2 * a + b) / (2 * b)

/-- Remove leading and trailing whitespace, as JavaScript
`String.prototype.trim` does. -/
def trimChars (l : List Char) : List Char :=
  ((l.dropWhile Char.isWhitespace).reverse.dropWhile Char.isWhitespace).reverse

/-- Answer comparison from lessons.js lines 237-238:
`answer.userAnswer.toLowerCase().trim() === exercise.correctAnswer.toLowerCase().trim()`. -/
def answersMatch (userAnswer correctAnswer : String) : Bool :=
  trimChars (userAnswer.data.map Char.toLower) ==
    trimChars (correctAnswer.data.map Char.toLower)

/-! ## Data model -/

/-- One exercise of a lesson (models/Lesson.js, exercise subdocument);
only the fields the submit route reads. -/
structure Exercise where
  correctAnswer : String
  points : Nat
deriving DecidableEq, Repr

/-- A lesson (models/Lesson.js); only the fields the submit route reads. -/
structure Lesson where
  exercises : List Exercise
  xpReward : Nat
  featherReward : Nat
  isActive : Bool
deriving DecidableEq, Repr

/-- League tiers, the `enum` of the `league` field in models/User. -/
inductive LeagueTier
  | Bronze
  | Silver
  | Gold
  | Platinum
  | Diamond
  | Master
deriving DecidableEq, Repr

/-- A user record (models/User); the fields mutated or read by the
submit, league and quest routes. `lastLessonDate` is a timestamp in
milliseconds since the epoch. -/
structure User where
  xp : Nat
  feathers : Nat
  level : Nat
  streak : Nat
  lastLessonDate : Option Nat
  league : LeagueTier
  leaguePoints : Nat
  leagueWeek : Nat
deriving DecidableEq, Repr

/-- Status of a progress record (models/Progress). -/
inductive ProgressStatus
  | notStarted
  | inProgress
  | completed
  | failed
deriving DecidableEq, Repr

/-- One per-exercise result pushed by `Progress.addExerciseResult`. -/
structure ExerciseResult where
  exerciseIndex : Nat
  isCorrect : Bool
  userAnswer : String
  correctAnswer : String
  timeSpent : Nat
  points : Nat
deriving DecidableEq, Repr

/-- A progress record (models/Progress), one per (user, lesson). -/
structure Progress where
  status : ProgressStatus
  score : Nat
  exerciseResults : List ExerciseResult
  xpEarned : Nat
  feathersEarned : Nat
  mistakes : Nat
  timeSpent : Nat
deriving DecidableEq, Repr

/-- One submitted answer (`{ exerciseIndex, userAnswer }`). -/
structure Answer where
  exerciseIndex : Nat
  userAnswer : String
deriving DecidableEq, Repr

/-! ## Progress methods (models/Lesson.js, progress schema methods) -/

/-- `calculateScore` (Lesson.js lines 296-303): score over the results
recorded so far, 0 when there are none. -/
def calculateScore (results : List ExerciseResult) : Nat :=
  if results.length = 0 then 0
  else roundDiv (100 * (results.filter (·.isCorrect)).length) results.length

/-- `addExerciseResult` (Lesson.js lines 306-321): push a result, count
a mistake on a wrong answer, accumulate time, recalculate the running
score. -/
def addExerciseResult (p : Progress) (exerciseIndex : Nat) (isCorrect : Bool)
    (userAnswer correctAnswer : String) (timeSpent points : Nat) : Progress :=
  let results := p.exerciseResults ++
    [{ exerciseIndex := exerciseIndex, isCorrect := isCorrect,
       userAnswer := userAnswer, correctAnswer := correctAnswer,
       timeSpent := timeSpent, points := if isCorrect then points else 0 }]
  { p with
    exerciseResults := results
    mistakes := if isCorrect then p.mistakes else p.mistakes + 1
    timeSpent := p.timeSpent + timeSpent
    score := calculateScore results }

/-! ## Streak update (lessons.js lines 279-298) -/

/-- Milliseconds per day, the `1000 * 60 * 60 * 24` of lessons.js. -/
def msPerDay : Nat := 86400000

/-- The `getDate/getMonth/getFullYear` same-calendar-day test, with the
reference timezone fixed to UTC. -/
def sameCalendarDay (t u : Nat) : Bool := t / msPerDay == u / msPerDay

/-- Streak fields of the user record. -/
structure StreakState where
  streak : Nat
  lastLessonDate : Option Nat
deriving DecidableEq, Repr

/-- The streak update of lessons.js lines 279-298, run on a completed
submission. Note the source increments the streak only when
`(today - lastLessonDate) / 86400000 === 1`, i.e. when the two
timestamps are exactly 86400000 ms apart, and resets it only when the
difference exceeds 86400000 ms; on a different calendar day closer than
24 hours neither branch fires and the streak is left unchanged. -/
def updateStreak (s : StreakState) (now : Nat) : StreakState :=
  match s.lastLessonDate with
  | none => { streak := 1, lastLessonDate := some now }
  | some last =>
    if sameCalendarDay now last then s
    else if now - last = msPerDay then
      { streak := s.streak + 1, lastLessonDate := some now }
    else if now - last > msPerDay then
      { streak := 1, lastLessonDate := some now }
    else
      { s with lastLessonDate := some now }

/-- Level update of lessons.js lines 300-304: recompute
`⌊xp/1000⌋ + 1` and store it only when it exceeds the stored level. -/
def updateLevel (u : User) : User :=
  let newLevel := u.xp / 1000 + 1
  if u.level < newLevel then { u with level := newLevel } else u

/-! ## Lesson submission (POST /api/lessons/:lessonId/submit) -/

inductive SubmitError
  | lessonNotFound
  | invalidExerciseIndex (index : Nat)
deriving DecidableEq, Repr

/-- The response payload of the submit route. -/
structure SubmitOutcome where
  score : Nat
  correctAnswers : Nat
  totalExercises : Nat
  isCompleted : Bool
  rewards : Option (Nat × Nat)
  progress : Progress
  user : User
deriving DecidableEq, Repr

/-- The answer-processing loop of lessons.js lines 231-255: look each
exercise up by index (error on an out-of-range index), record the
result on the progress record and count correct answers. `c` is the
`correctAnswers` accumulator. -/
def processAnswers (lesson : Lesson) (timeSpent : Nat) :
    Progress → Nat → List Answer → Except SubmitError (Progress × Nat)
  | p, c, [] => .ok (p, c)
  | p, c, a :: rest =>
    match lesson.exercises.get? a.exerciseIndex with
    | none => .error (.invalidExerciseIndex a.exerciseIndex)
    | some ex =>
      let isCorrect := answersMatch a.userAnswer ex.correctAnswer
      processAnswers lesson timeSpent
        (addExerciseResult p a.exerciseIndex isCorrect a.userAnswer
          ex.correctAnswer timeSpent ex.points)
        (if isCorrect then c + 1 else c) rest

/-- Number of submitted answers whose answer matches the correct answer
of the exercise they name (the count accumulated by the loop of
lessons.js lines 231-255). -/
def countCorrect (lesson : Lesson) (answers : List Answer) : Nat :=
  answers.countP fun a =>
    match lesson.exercises.get? a.exerciseIndex with
    | some ex => answersMatch a.userAnswer ex.correctAnswer
    | none => false

/-- The tail of the submit route (lessons.js lines 257-328) after the
answer loop: final score over the lesson total exercise count,
70-threshold completion, rewards, streak and level updates on the
completed branch, failed status otherwise. -/
def submitFinalize (lesson : Lesson) (user : User) (p : Progress)
    (correct now : Nat) : SubmitOutcome :=
  let n := lesson.exercises.length
  let finalScore := roundDiv (100 * correct) n
  if 70 ≤ finalScore then
    let xpGain := roundDiv (lesson.xpReward * finalScore) 100
    let featherGain := roundDiv (lesson.featherReward * finalScore) 100
    let p2 := { p with status := .completed, score := finalScore,
                       xpEarned := xpGain, feathersEarned := featherGain }
    let u1 := { user with xp := user.xp + xpGain,
                          feathers := user.feathers + featherGain }
    let st := updateStreak { streak := u1.streak, lastLessonDate := u1.lastLessonDate } now
    let u2 := updateLevel { u1 with streak := st.streak, lastLessonDate := st.lastLessonDate }
    { score := finalScore, correctAnswers := correct, totalExercises := n,
      isCompleted := true, rewards := some (xpGain, featherGain),
      progress := p2, user := u2 }
  else
    { score := finalScore, correctAnswers := correct, totalExercises := n,
      isCompleted := false, rewards := none,
      progress := { p with status := .failed, score := finalScore },
      user := user }

/-- POST /api/lessons/:lessonId/submit (lessons.js lines 187-329).
The route takes the stored progress record as found (or freshly
created); it has no check of `progress.status` before re-processing a
submission. -/
def submitLesson (lesson : Lesson) (user : User) (progress : Progress)
    (answers : List Answer) (timeSpent now : Nat) :
    Except SubmitError SubmitOutcome :=
  if lesson.isActive = false then .error .lessonNotFound
  else
    match processAnswers lesson timeSpent progress 0 answers with
    | .error e => .error e
    | .ok (p, correct) => .ok (submitFinalize lesson user p correct now)

/-! ## League points (POST /api/leagues/update-points, leagues.js) -/

inductive LeagueError
  | invalidPoints
deriving DecidableEq, Repr

/-- The response payload of the update-points route. -/
structure LeagueUpdate where
  user : User
  oldLeague : LeagueTier
  newLeague : LeagueTier
  oldPoints : Nat
  newPoints : Nat
  promoted : Bool
  leagueWeek : Nat
deriving DecidableEq, Repr

/-- `leagueThresholds` of leagues.js lines 152-158, in object insertion
order. -/
def leagueThresholds : List (LeagueTier × Nat) :=
  [(.Bronze, 1000), (.Silver, 2500), (.Gold, 5000), (.Platinum, 10000),
   (.Diamond, 20000)]

/-- The promotion scan of leagues.js lines 160-168: iterate the
thresholds in order, remembering the last entry whose threshold is met
and whose tier differs from the current tier. -/
def scanPromotion (current : LeagueTier) (newPoints : Nat) : LeagueTier × Bool :=
  leagueThresholds.foldl
    (fun acc entry =>
      if entry.2 ≤ newPoints ∧ current ≠ entry.1 then (entry.1, true) else acc)
    (current, false)

/-- POST /api/leagues/update-points (leagues.js lines 137-193). The
guard is the literal `if (!points || points < 0)`, so a zero amount is
rejected alongside negative ones. -/
def updatePoints (user : User) (points : Int) : Except LeagueError LeagueUpdate :=
  if points = 0 ∨ points < 0 then .error .invalidPoints
  else
    let newPoints := user.leaguePoints + points.toNat
    let scan := scanPromotion user.league newPoints
    let u2 :=
      if scan.2 then
        { user with leaguePoints := newPoints, league := scan.1, leagueWeek := 1 }
      else
        { user with leaguePoints := newPoints, leagueWeek := user.leagueWeek + 1 }
    .ok { user := u2, oldLeague := user.league, newLeague := u2.league,
          oldPoints := user.leaguePoints, newPoints := newPoints,
          promoted := scan.2, leagueWeek := u2.leagueWeek }

/-- Entry requirement of each tier of the ascending ladder, as the
spec states it (and as the `leagueInfo` table of GET /api/leagues/current
lists it: Bronze from 0, Silver from 1000, Gold from 2500, Platinum from
5000, Diamond from 10000, Master from 20000). Spec-side definition used
to compare the route against the claimed ladder semantics. -/
def specHighestTier (total : Nat) : LeagueTier :=
  if 20000 ≤ total then .Master
  else if 10000 ≤ total then .Diamond
  else if 5000 ≤ total then .Platinum
  else if 2500 ≤ total then .Gold
  else if 1000 ≤ total then .Silver
  else .Bronze

/-! ## Leaderboard rank (GET /api/leagues/leaderboard, leagues.js lines 19-43) -/

/-- The projection of a user the rank query reads. -/
structure RankEntry where
  leaguePoints : Nat
  xp : Nat
deriving DecidableEq, Repr

/-- The `$or` filter of the rank query (leagues.js lines 28-37): `v` is
strictly ahead of `u` when it has more league points, or equal league
points and more XP. -/
def isAhead (v u : RankEntry) : Bool :=
  decide (u.leaguePoints < v.leaguePoints ∨
    (v.leaguePoints = u.leaguePoints ∧ u.xp < v.xp))

/-- `userRank` (leagues.js line 43): the count of matching users plus 1. -/
def userRank (users : List RankEntry) (u : RankEntry) : Nat :=
  (users.filter fun v => isAhead v u).length + 1

/-- The ordering of the spec sentence: primary key league points
descending, secondary key XP descending; `v` strictly ahead of `u`.
Spec-side definition used to compare the rank computation against. -/
def specAhead (v u : RankEntry) : Prop :=
  u.leaguePoints < v.leaguePoints ∨
    (v.leaguePoints = u.leaguePoints ∧ u.xp < v.xp)

instance (v u : RankEntry) : Decidable (specAhead v u) :=
  inferInstanceAs (Decidable (_ ∨ _))

/-! ## Quest claim (POST /api/quests/claim/:questId, auth.js lines 566-644) -/

/-- The `questTypes` reward table of auth.js lines 572-605. -/
def questReward : String → Option (Nat × Nat)
  | "complete_lessons" => some (50, 5)
  | "maintain_streak" => some (30, 3)
  | "perfect_score" => some (100, 10)
  | "practice_time" => some (40, 4)
  | "complete_lessons_week" => some (200, 20)
  | "maintain_streak_week" => some (300, 30)
  | "league_progress" => some (250, 25)
  | "perfect_scores_week" => some (400, 40)
  | _ => none

inductive QuestError
  | questNotFound
  | questNotCompleted
  | alreadyClaimed
deriving DecidableEq, Repr

/-- The response payload of the claim route. -/
structure QuestClaim where
  user : User
  xp : Nat
  feathers : Nat
deriving DecidableEq, Repr

/-- POST /api/quests/claim/:questId (auth.js lines 566-644). The
completion and already-claimed checks are the literal constants of the
source (`const isCompleted = true` and `const alreadyClaimed = false`,
both marked as placeholders there), so neither guard can ever fail; the
route adds the table rewards to the user counters and never touches the
level field. -/
def claimQuest (user : User) (questId : String) : Except QuestError QuestClaim :=
  match questReward questId with
  | none => .error .questNotFound
  | some r =>
    let isCompleted := true
    let alreadyClaimed := false
    if isCompleted = false then .error .questNotCompleted
    else if alreadyClaimed = true then .error .alreadyClaimed
    else
      .ok { user := { user with xp := user.xp + r.1, feathers := user.feathers + r.2 },
            xp := r.1, feathers := r.2 }

/-- The level invariant of the spec data model:
`level = ⌊XP/1000⌋ + 1`. -/
def levelInvariantHolds (u : User) : Bool := u.level == u.xp / 1000 + 1

/-! ## Projection helpers for concrete evaluations -/

/-- Score of a successful submission, `none` on an error. -/
def submitScore (lesson : Lesson) (user : User) (progress : Progress)
    (answers : List Answer) (timeSpent now : Nat) : Option Nat :=
  match submitLesson lesson user progress answers timeSpent now with
  | .ok out => some out.score
  | .error _ => none

/-- XP of the user after a successful submission, `none` on an error. -/
def submitUserXp (lesson : Lesson) (user : User) (progress : Progress)
    (answers : List Answer) (timeSpent now : Nat) : Option Nat :=
  match submitLesson lesson user progress answers timeSpent now with
  | .ok out => some out.user.xp
  | .error _ => none

/-- Feathers of the user after a successful submission. -/
def submitUserFeathers (lesson : Lesson) (user : User) (progress : Progress)
    (answers : List Answer) (timeSpent now : Nat) : Option Nat :=
  match submitLesson lesson user progress answers timeSpent now with
  | .ok out => some out.user.feathers
  | .error _ => none

/-- League tier after a successful points update, `none` on an error. -/
def leagueAfter (u : User) (points : Int) : Option LeagueTier :=
  match updatePoints u points with
  | .ok r => some r.user.league
  | .error _ => none

/-- Week counter after a successful points update. -/
def leagueWeekAfter (u : User) (points : Int) : Option Nat :=
  match updatePoints u points with
  | .ok r => some r.user.leagueWeek
  | .error _ => none

/-- Promotion flag after a successful points update. -/
def promotedAfter (u : User) (points : Int) : Option Bool :=
  match updatePoints u points with
  | .ok r => some r.promoted
  | .error _ => none

/-- Error of a failed points update, `none` on success. -/
def updatePointsError (u : User) (points : Int) : Option LeagueError :=
  match updatePoints u points with
  | .error e => some e
  | .ok _ => none

/-- User after a successful quest claim, `none` on an error. -/
def claimQuestUser (u : User) (questId : String) : Option User :=
  match claimQuest u questId with
  | .ok r => some r.user
  | .error _ => none

/-- XP after claiming the same quest twice in a row; `none` when either
claim fails. -/
def claimTwiceXp (u : User) (questId : String) : Option Nat :=
  match claimQuest u questId with
  | .error _ => none
  | .ok r =>
    match claimQuest r.user questId with
    | .error _ => none
    | .ok r2 => some r2.user.xp

/-! ## Concrete fixtures -/

/-- A fresh user at the model defaults (xp 0, feathers 0, level 1,
streak 0, Bronze, 0 league points). -/
def user0 : User :=
  { xp := 0, feathers := 0, level := 1, streak := 0, lastLessonDate := none,
    league := .Bronze, leaguePoints := 0, leagueWeek := 0 }

/-- An in-progress progress record with no results yet. -/
def freshProgress : Progress :=
  { status := .inProgress, score := 0, exerciseResults := [],
    xpEarned := 0, feathersEarned := 0, mistakes := 0, timeSpent := 0 }

/-- A one-exercise lesson at the default reward values. -/
def lesson1 : Lesson :=
  { exercises := [{ correctAnswer := "a", points := 10 }],
    xpReward := 50, featherReward := 5, isActive := true }

/-- A two-exercise lesson at the default reward values. -/
def lesson2 : Lesson :=
  { exercises := [{ correctAnswer := "a", points := 10 },
                  { correctAnswer := "b", points := 10 }],
    xpReward := 50, featherReward := 5, isActive := true }

/-- The four-exercise example lesson of the spec (baseXP 50,
baseFeathers 5). -/
def lesson4 : Lesson :=
  { exercises := [{ correctAnswer := "a", points := 10 },
                  { correctAnswer := "b", points := 10 },
                  { correctAnswer := "c", points := 10 },
                  { correctAnswer := "d", points := 10 }],
    xpReward := 50, featherReward := 5, isActive := true }

/-- Answers for `lesson4` with exactly three correct of four. -/
def answers3of4 : List Answer :=
  [{ exerciseIndex := 0, userAnswer := "a" },
   { exerciseIndex := 1, userAnswer := "b" },
   { exerciseIndex := 2, userAnswer := "c" },
   { exerciseIndex := 3, userAnswer := "x" }]

/-- A progress record already in the completed state. -/
def completedProgress : Progress :=
  { status := .completed, score := 100, exerciseResults := [],
    xpEarned := 50, feathersEarned := 5, mistakes := 0, timeSpent := 0 }

/-- A Gold user with 5500 league points. -/
def goldUser : User := { user0 with league := .Gold, leaguePoints := 5500 }

/-- A user one quest reward short of level 2 (xp 980, level 1). -/
def user980 : User := { user0 with xp := 980 }

/-- Leaderboard entry A of the spec example (1000 points, 500 xp). -/
def rankA : RankEntry := { leaguePoints := 1000, xp := 500 }

/-- Leaderboard entry B of the spec example (1000 points, 800 xp). -/
def rankB : RankEntry := { leaguePoints := 1000, xp := 800 }

/-- One wrong answer for `lesson1`. -/
def answersWrong1 : List Answer := [{ exerciseIndex := 0, userAnswer := "b" }]

/-- One correct answer for the two-exercise `lesson2`. -/
def answers1of2 : List Answer := [{ exerciseIndex := 0, userAnswer := "a" }]

/-- Two answers that both name exercise 0 of `lesson2`, both correct:
the submitted indices cover a strict subset of the exercises. -/
def answersDup : List Answer :=
  [{ exerciseIndex := 0, userAnswer := "a" },
   { exerciseIndex := 0, userAnswer := "a" }]

/-! ## Helper lemmas -/

theorem updateLevel_xp (u : User) : (updateLevel u).xp = u.xp := by
  simp only [updateLevel]
  split <;> rfl

theorem updateLevel_feathers (u : User) : (updateLevel u).feathers = u.feathers := by
  simp only [updateLevel]
  split <;> rfl

/-- The answer loop succeeds when every index is in range, returning the
`countCorrect` count and appending the recorded results to the progress
record. -/
theorem processAnswers_ok (lesson : Lesson) (ts : Nat) :
    ∀ (answers : List Answer) (p : Progress) (c : Nat),
      (∀ a ∈ answers, a.exerciseIndex < lesson.exercises.length) →
      ∃ p2, processAnswers lesson ts p c answers =
          .ok (p2, c + countCorrect lesson answers) ∧
        ∃ tail, p2.exerciseResults = p.exerciseResults ++ tail := by
  intro answers
  induction answers with
  | nil =>
    intro p c _
    refine ⟨p, ?_, [], by simp⟩
    simp [processAnswers, countCorrect]
  | cons a rest ih =>
    intro p c h
    have ha : a.exerciseIndex < lesson.exercises.length :=
      h a (List.mem_cons_self a rest)
    cases hex : lesson.exercises.get? a.exerciseIndex with
    | none =>
      exact absurd (List.get?_eq_none.mp hex) (by omega)
    | some ex =>
      obtain ⟨p2, hp2, tail, htail⟩ :=
        ih (addExerciseResult p a.exerciseIndex
              (answersMatch a.userAnswer ex.correctAnswer) a.userAnswer
              ex.correctAnswer ts ex.points)
          (if answersMatch a.userAnswer ex.correctAnswer then c + 1 else c)
          (fun b hb => h b (List.mem_cons_of_mem a hb))
      have hex2 : lesson.exercises[a.exerciseIndex]? = some ex := by
        simpa using hex
      refine ⟨p2, ?_, ?_⟩
      · have hcount : countCorrect lesson (a :: rest) =
            countCorrect lesson rest +
              (if answersMatch a.userAnswer ex.correctAnswer then 1 else 0) := by
          simp [countCorrect, List.countP_cons, hex2]
        rw [hcount]
        simp only [processAnswers, hex]
        rw [hp2]
        congr 2
        split <;> omega
      · refine ⟨{ exerciseIndex := a.exerciseIndex,
                  isCorrect := answersMatch a.userAnswer ex.correctAnswer,
                  userAnswer := a.userAnswer, correctAnswer := ex.correctAnswer,
                  timeSpent := ts,
                  points := if answersMatch a.userAnswer ex.correctAnswer
                            then ex.points else 0 } :: tail, ?_⟩
        rw [htail]
        simp [addExerciseResult]

/-- The submit route on an active lesson reduces to `submitFinalize`
once the answer loop has succeeded. -/
theorem submitLesson_ok (lesson : Lesson) (user : User) (progress : Progress)
    (answers : List Answer) (ts now : Nat) (p : Progress) (c : Nat)
    (hActive : lesson.isActive = true)
    (hproc : processAnswers lesson ts progress 0 answers = .ok (p, c)) :
    submitLesson lesson user progress answers ts now =
      .ok (submitFinalize lesson user p c now) := by
  unfold submitLesson
  rw [hActive, hproc]
  rfl

theorem submitFinalize_score (lesson : Lesson) (user : User) (p : Progress)
    (c now : Nat) :
    (submitFinalize lesson user p c now).score =
      roundDiv (100 * c) lesson.exercises.length := by
  simp only [submitFinalize]
  split <;> rfl

theorem submitFinalize_total (lesson : Lesson) (user : User) (p : Progress)
    (c now : Nat) :
    (submitFinalize lesson user p c now).totalExercises =
      lesson.exercises.length := by
  simp only [submitFinalize]
  split <;> rfl

theorem submitFinalize_correct (lesson : Lesson) (user : User) (p : Progress)
    (c now : Nat) :
    (submitFinalize lesson user p c now).correctAnswers = c := by
  simp only [submitFinalize]
  split <;> rfl

/-- `Math.round (100 c / n)` stays below 100 when `c < n` and
`n < 200` (at `n ≥ 200` the half-up rounding can reach 100 from
`c = n - 1`). -/
theorem roundDiv_lt_100 (c n : Nat) (hc : c < n) (hn : n < 200) :
    roundDiv (100 * c) n < 100 := by
  unfold roundDiv
  rw [Nat.div_lt_iff_lt_mul (by omega : 0 < 2 * n)]
  omega

theorem filter_length_le {α : Type} (p q : α → Bool)
    (h : ∀ v, p v = true → q v = true) :
    ∀ l : List α, (l.filter p).length ≤ (l.filter q).length := by
  intro l
  induction l with
  | nil => simp
  | cons x xs ih =>
    by_cases hx : p x = true
    · rw [List.filter_cons_of_pos hx, List.filter_cons_of_pos (h x hx)]
      simpa using ih
    · rw [List.filter_cons_of_neg (by simpa using hx)]
      by_cases hq : q x = true
      · rw [List.filter_cons_of_pos hq]
        exact ih.trans (Nat.le_succ _)
      · rw [List.filter_cons_of_neg (by simpa using hq)]
        exact ih

/-- With equal league points and strictly more XP, `B` is ahead of
strictly more users than `A` is, whenever `B` is itself in the list. -/
theorem filter_ahead_lt (A B : RankEntry)
    (hlp : B.leaguePoints = A.leaguePoints) (hxp : A.xp < B.xp) :
    ∀ users : List RankEntry, B ∈ users →
      (users.filter fun v => isAhead v B).length <
        (users.filter fun v => isAhead v A).length := by
  have hmono : ∀ v, isAhead v B = true → isAhead v A = true := by
    intro v hv
    simp only [isAhead, decide_eq_true_eq] at hv ⊢
    rcases hv with h | ⟨h1, h2⟩
    · exact Or.inl (by omega)
    · exact Or.inr ⟨by omega, by omega⟩
  have hBA : isAhead B A = true := by
    simp only [isAhead, decide_eq_true_eq]
    exact Or.inr ⟨hlp, hxp⟩
  have hBB : isAhead B B = false := by
    simp [isAhead]
  intro users
  induction users with
  | nil => intro hB; cases hB
  | cons x xs ih =>
    intro hB
    rcases List.mem_cons.mp hB with h | hmem
    · subst h
      have hle := filter_length_le _ _ hmono xs
      simp only [List.filter_cons, hBB, hBA, Bool.false_eq_true, if_false, if_true]
      simp only [List.length_cons]
      omega
    · have hlt := ih hmem
      by_cases hx : isAhead x B = true
      · have hxA := hmono x hx
        simp only [List.filter_cons, hx, hxA, if_true, List.length_cons]
        omega
      · have hx2 : isAhead x B = false := by simpa using hx
        by_cases hq : isAhead x A = true
        · simp only [List.filter_cons, hx2, hq, if_true, Bool.false_eq_true,
            if_false, List.length_cons]
          omega
        · have hq2 : isAhead x A = false := by simpa using hq
          simp only [List.filter_cons, hx2, hq2, Bool.false_eq_true, if_false]
          omega

/-- Threshold, reward and frame properties of the post-loop part of the
submit route, by cases on the 70-threshold. -/
theorem submitFinalize_props (lesson : Lesson) (user : User) (p : Progress)
    (c now : Nat) :
    ((submitFinalize lesson user p c now).isCompleted = true ↔
        70 ≤ (submitFinalize lesson user p c now).score) ∧
    ((submitFinalize lesson user p c now).isCompleted = true →
        (submitFinalize lesson user p c now).user.xp =
          user.xp +
            roundDiv (lesson.xpReward * (submitFinalize lesson user p c now).score) 100 ∧
        (submitFinalize lesson user p c now).user.feathers =
          user.feathers +
            roundDiv (lesson.featherReward * (submitFinalize lesson user p c now).score) 100 ∧
        (submitFinalize lesson user p c now).progress.status = .completed ∧
        (submitFinalize lesson user p c now).rewards =
          some (roundDiv (lesson.xpReward * (submitFinalize lesson user p c now).score) 100,
                roundDiv (lesson.featherReward * (submitFinalize lesson user p c now).score) 100)) ∧
    ((submitFinalize lesson user p c now).isCompleted = false →
        (submitFinalize lesson user p c now).user = user ∧
        (submitFinalize lesson user p c now).progress.status = .failed ∧
        (submitFinalize lesson user p c now).rewards = none) := by
  simp only [submitFinalize]
  split_ifs with h
  · refine ⟨by simpa using h, ?_, by simp⟩
    intro _
    refine ⟨?_, ?_, rfl, rfl⟩
    · simp [updateLevel_xp]
    · simp [updateLevel_feathers]
  · refine ⟨by simpa using h, by simp, ?_⟩
    intro _
    exact ⟨rfl, rfl, rfl⟩

/-! ## Claims -/

/-- Claim C1, counterexample to the subset clause: on the two-exercise
`lesson2`, two correct answers that both name exercise 0 — a strict
subset of the exercises, exercise 1 never answered — reach the full
score of 100, because the loop counts each submitted answer and the
duplicate counts twice. -/
theorem submit_subset_reaches_full_score :
    submitScore lesson2 user0 freshProgress answersDup 0 0 = some 100 ∧
    lesson2.exercises.length = 2 ∧
    answersDup.all (fun a => a.exerciseIndex == 0) = true := by decide

/-- Claim C1 (amended): on an active lesson with N > 0 exercises and
all submitted indices in range, the submit route returns score
round(100 × C / N) where C counts the submitted answers matching their
exercise under the case-insensitive trimmed comparison (duplicates each
counted); the response reports N as the total and C as the correct
count; and submitting fewer answers than N caps the score below 100
whenever N < 200. -/
theorem submit_score_denominator (lesson : Lesson) (user : User)
    (progress : Progress) (answers : List Answer) (ts now : Nat)
    (hActive : lesson.isActive = true)
    (hN : 0 < lesson.exercises.length)
    (hin : ∀ a ∈ answers, a.exerciseIndex < lesson.exercises.length) :
    ∃ out, submitLesson lesson user progress answers ts now = .ok out ∧
      out.score = roundDiv (100 * countCorrect lesson answers) lesson.exercises.length ∧
      out.totalExercises = lesson.exercises.length ∧
      out.correctAnswers = countCorrect lesson answers ∧
      (answers.length < lesson.exercises.length → lesson.exercises.length < 200 →
        out.score < 100) := by
  obtain ⟨p2, hproc, -⟩ := processAnswers_ok lesson ts answers progress 0 hin
  refine ⟨_, submitLesson_ok lesson user progress answers ts now p2 _ hActive hproc,
    ?_, submitFinalize_total lesson user p2 _ now, ?_, ?_⟩
  · rw [submitFinalize_score]
    simp
  · rw [submitFinalize_correct]
    simp
  · intro h1 h2
    rw [submitFinalize_score]
    have hle : countCorrect lesson answers ≤ answers.length :=
      List.countP_le_length _
    have hz : 0 + countCorrect lesson answers = countCorrect lesson answers :=
      Nat.zero_add _
    rw [hz]
    exact roundDiv_lt_100 _ _ (Nat.lt_of_le_of_lt hle h1) h2

/-- Claim C1, witness: a single correct answer to the two-exercise
`lesson2` satisfies the hypotheses and scores round(100 × 1/2) = 50,
below 100. -/
theorem submit_score_denominator_witness :
    (lesson2.isActive = true ∧ 0 < lesson2.exercises.length ∧
      ∀ a ∈ answers1of2, a.exerciseIndex < lesson2.exercises.length) ∧
    (∃ out, submitLesson lesson2 user0 freshProgress answers1of2 0 0 = .ok out ∧
      out.score = roundDiv (100 * countCorrect lesson2 answers1of2) lesson2.exercises.length ∧
      out.totalExercises = lesson2.exercises.length ∧
      out.correctAnswers = countCorrect lesson2 answers1of2 ∧
      (answers1of2.length < lesson2.exercises.length → lesson2.exercises.length < 200 →
        out.score < 100)) :=
  ⟨⟨rfl, by decide, by decide⟩,
    submit_score_denominator lesson2 user0 freshProgress answers1of2 0 0 rfl
      (by decide) (by decide)⟩

/-- Claim C2: the submit route has no completed-status guard. With a
progress record already in the completed state, resubmitting the
one-exercise `lesson1` succeeds (no Conflict error) and raises the user
XP from 0 to 50 — a second award, contradicting the claim that the
operation fails and leaves XP unchanged. -/
theorem submit_ignores_completed_status :
    completedProgress.status = .completed ∧
    user0.xp = 0 ∧
    submitUserXp lesson1 user0 completedProgress answers1of2 0 0 = some 50 := by
  decide

/-- Claim C3: on an active lesson with in-range answers, the submission
is completed exactly when the final score is at least 70; when
completed, XP and feathers grow by round(base × score/100) and the
progress status becomes completed; when not completed, the user record
is unchanged, no rewards are returned and the progress status becomes
failed. -/
theorem submit_threshold_and_rewards (lesson : Lesson) (user : User)
    (progress : Progress) (answers : List Answer) (ts now : Nat)
    (hActive : lesson.isActive = true)
    (hin : ∀ a ∈ answers, a.exerciseIndex < lesson.exercises.length) :
    ∃ out, submitLesson lesson user progress answers ts now = .ok out ∧
      ((out.isCompleted = true ↔ 70 ≤ out.score) ∧
      (out.isCompleted = true →
        out.user.xp = user.xp + roundDiv (lesson.xpReward * out.score) 100 ∧
        out.user.feathers = user.feathers + roundDiv (lesson.featherReward * out.score) 100 ∧
        out.progress.status = .completed ∧
        out.rewards = some (roundDiv (lesson.xpReward * out.score) 100,
                            roundDiv (lesson.featherReward * out.score) 100)) ∧
      (out.isCompleted = false →
        out.user = user ∧ out.progress.status = .failed ∧ out.rewards = none)) := by
  obtain ⟨p2, hproc, -⟩ := processAnswers_ok lesson ts answers progress 0 hin
  exact ⟨_, submitLesson_ok lesson user progress answers ts now p2 _ hActive hproc,
    submitFinalize_props lesson user p2 _ now⟩

/-- Claim C3, witness: the spec example — four exercises, baseXP 50,
baseFeathers 5, three correct of four — satisfies the hypotheses and
yields score 75, completed, 38 XP and 4 feathers. -/
theorem submit_threshold_and_rewards_witness :
    (lesson4.isActive = true ∧
      ∀ a ∈ answers3of4, a.exerciseIndex < lesson4.exercises.length) ∧
    (∃ out, submitLesson lesson4 user0 freshProgress answers3of4 0 0 = .ok out ∧
      ((out.isCompleted = true ↔ 70 ≤ out.score) ∧
      (out.isCompleted = true →
        out.user.xp = user0.xp + roundDiv (lesson4.xpReward * out.score) 100 ∧
        out.user.feathers = user0.feathers + roundDiv (lesson4.featherReward * out.score) 100 ∧
        out.progress.status = .completed ∧
        out.rewards = some (roundDiv (lesson4.xpReward * out.score) 100,
                            roundDiv (lesson4.featherReward * out.score) 100)) ∧
      (out.isCompleted = false →
        out.user = user0 ∧ out.progress.status = .failed ∧ out.rewards = none))) ∧
    submitScore lesson4 user0 freshProgress answers3of4 0 0 = some 75 ∧
    submitUserXp lesson4 user0 freshProgress answers3of4 0 0 = some 38 ∧
    submitUserFeathers lesson4 user0 freshProgress answers3of4 0 0 = some 4 :=
  ⟨⟨rfl, by decide⟩,
    submit_threshold_and_rewards lesson4 user0 freshProgress answers3of4 0 0 rfl
      (by decide),
    by decide, by decide, by decide⟩

/-- Claim C4: the streak update does not increment on consecutive
calendar days. With the last completion at 36000000 ms (day 0, 10:00
UTC) and a new completion at 118800000 ms (day 1, 09:00 UTC) — one
calendar day later — the streak stays at 1 instead of becoming 2,
because the source increments only when the timestamps are exactly
86400000 ms apart, as the third conjunct shows. -/
theorem streak_consecutive_day_not_incremented :
    updateStreak { streak := 1, lastLessonDate := some 36000000 } 118800000 =
      { streak := 1, lastLessonDate := some 118800000 } ∧
    118800000 / msPerDay = 36000000 / msPerDay + 1 ∧
    updateStreak { streak := 1, lastLessonDate := some 36000000 }
        (36000000 + msPerDay) =
      { streak := 2, lastLessonDate := some (36000000 + msPerDay) } := by
  decide

/-- Claim C5: the promotion scan disagrees with the ladder semantics.
A Bronze user reaching 1500 total points stays Bronze without promotion
(the spec ladder puts 1500 in Silver), and a Gold user reaching 6000
total points is demoted to Silver with the promoted flag set (the spec
ladder puts 6000 in Platinum). -/
theorem league_scan_mismatch :
    leagueAfter user0 1500 = some .Bronze ∧
    promotedAfter user0 1500 = some false ∧
    specHighestTier 1500 = .Silver ∧
    leagueAfter goldUser 500 = some .Silver ∧
    promotedAfter goldUser 500 = some true ∧
    specHighestTier 6000 = .Platinum := by decide

/-- Claim C6, counterexample: a zero amount is rejected with the
InvalidPoints error — the guard is `!points || points < 0` — although
the claim admits every amount ≥ 0. -/
theorem updatePoints_rejects_zero :
    updatePointsError user0 0 = some .invalidPoints := by decide

/-- Claim C6 (amended): the update-points operation fails with the
InvalidPoints validation error exactly when the supplied amount is ≤ 0;
every positive amount is accepted and added to the cumulative total. -/
theorem updatePoints_validation (u : User) (points : Int) :
    (updatePointsError u points = some .invalidPoints ↔ points ≤ 0) ∧
    (0 < points →
      ∃ r, updatePoints u points = .ok r ∧
        r.newPoints = u.leaguePoints + points.toNat ∧
        r.user.leaguePoints = u.leaguePoints + points.toNat) := by
  unfold updatePointsError updatePoints
  by_cases h : points = 0 ∨ points < 0
  · rw [if_pos h]
    refine ⟨?_, ?_⟩
    · dsimp only
      exact ⟨fun _ => by omega, fun _ => rfl⟩
    · intro hp
      exact absurd hp (by omega)
  · rw [if_neg h]
    refine ⟨?_, ?_⟩
    · dsimp only
      refine ⟨fun hfalse => Option.noConfusion hfalse, fun hle => ?_⟩
      exact absurd (show points = 0 ∨ points < 0 by omega) h
    · intro _
      exact ⟨_, rfl, rfl, by dsimp only; split <;> rfl⟩

/-- Claim C6, witness: the amount 5 is positive and is added to the
total of `user0`. -/
theorem updatePoints_validation_witness :
    (updatePointsError user0 5 = some .invalidPoints ↔ (5 : Int) ≤ 0) ∧
    ((0 : Int) < 5 →
      ∃ r, updatePoints user0 5 = .ok r ∧
        r.newPoints = user0.leaguePoints + (5 : Int).toNat ∧
        r.user.leaguePoints = user0.leaguePoints + (5 : Int).toNat) :=
  updatePoints_validation user0 5

/-- Claim C7: the leaderboard rank equals 1 plus the number of users
strictly ahead under the ordering with primary key league points
descending and secondary key XP descending, and with equal league
points the user with more XP ranks strictly above the other. -/
theorem leaderboard_rank_correct (users : List RankEntry) (u A B : RankEntry)
    (hA : A ∈ users) (hB : B ∈ users)
    (hlp : B.leaguePoints = A.leaguePoints) (hxp : A.xp < B.xp) :
    userRank users u = 1 + users.countP (fun v => decide (specAhead v u)) ∧
    userRank users B < userRank users A := by
  constructor
  · unfold userRank
    rw [List.countP_eq_length_filter]
    have hpred : (fun v => isAhead v u) = fun v => decide (specAhead v u) := rfl
    rw [hpred, Nat.add_comm]
  · have hlt := filter_ahead_lt A B hlp hxp users hB
    unfold userRank
    omega

/-- Claim C7, witness: the spec example — A with 1000 points and 500 XP,
B with 1000 points and 800 XP — where B ranks above A. -/
theorem leaderboard_rank_correct_witness :
    (rankA ∈ [rankA, rankB] ∧ rankB ∈ [rankA, rankB] ∧
      rankB.leaguePoints = rankA.leaguePoints ∧ rankA.xp < rankB.xp) ∧
    (userRank [rankA, rankB] rankA =
        1 + [rankA, rankB].countP (fun v => decide (specAhead v rankA)) ∧
      userRank [rankA, rankB] rankB < userRank [rankA, rankB] rankA) :=
  ⟨⟨by decide, by decide, by decide, by decide⟩,
    leaderboard_rank_correct [rankA, rankB] rankA rankA rankB (by decide)
      (by decide) (by decide) (by decide)⟩

/-- Claim C8: the quest-claim route adds XP without recomputing the
level, breaking the invariant level = ⌊XP/1000⌋ + 1. A user with
980 XP at level 1 satisfies the invariant; claiming the
complete_lessons quest leaves a user with 1030 XP still at level 1,
where the invariant requires level 2. -/
theorem claim_quest_breaks_level_invariant :
    levelInvariantHolds user980 = true ∧
    (claimQuestUser user980 "complete_lessons").map User.xp = some 1030 ∧
    (claimQuestUser user980 "complete_lessons").map levelInvariantHolds =
      some false := by decide

/-- Claim C9: the quest-claim route has no persisted claimed flag and
its completion and already-claimed checks are constant placeholders, so
claiming the same quest twice succeeds both times: starting from 0 XP,
the first claim of complete_lessons yields 50 XP and the second yields
100 XP instead of failing. -/
theorem claim_quest_replayable :
    (claimQuestUser user0 "complete_lessons").map User.xp = some 50 ∧
    claimTwiceXp user0 "complete_lessons" = some 100 := by decide

/-- Claim C10: a submission whose final score is below 70 leaves the
user record untouched and only updates the progress record — status
failed, score set, the recorded exercise results appended to the
existing ones. -/
theorem submit_failed_frame (lesson : Lesson) (user : User)
    (progress : Progress) (answers : List Answer) (ts now : Nat)
    (hActive : lesson.isActive = true)
    (hN : 0 < lesson.exercises.length)
    (hin : ∀ a ∈ answers, a.exerciseIndex < lesson.exercises.length)
    (hscore : roundDiv (100 * countCorrect lesson answers) lesson.exercises.length < 70) :
    ∃ out, submitLesson lesson user progress answers ts now = .ok out ∧
      out.isCompleted = false ∧
      out.user = user ∧
      out.progress.status = .failed ∧
      out.progress.score =
        roundDiv (100 * countCorrect lesson answers) lesson.exercises.length ∧
      ∃ tail, out.progress.exerciseResults = progress.exerciseResults ++ tail := by
  obtain ⟨p2, hproc, tail, htail⟩ := processAnswers_ok lesson ts answers progress 0 hin
  refine ⟨_, submitLesson_ok lesson user progress answers ts now p2 _ hActive hproc, ?_⟩
  have hn70 : ¬ 70 ≤
      roundDiv (100 * (0 + countCorrect lesson answers)) lesson.exercises.length := by
    simpa using Nat.not_le_of_lt hscore
  simp only [submitFinalize, if_neg hn70]
  refine ⟨?_, ?_, ?_, ?_, tail, ?_⟩ <;> simp [htail]

/-- Claim C10, witness: a wrong answer to the one-exercise `lesson1`
scores 0, below 70, and the hypotheses hold. -/
theorem submit_failed_frame_witness :
    (lesson1.isActive = true ∧ 0 < lesson1.exercises.length ∧
      (∀ a ∈ answersWrong1, a.exerciseIndex < lesson1.exercises.length) ∧
      roundDiv (100 * countCorrect lesson1 answersWrong1) lesson1.exercises.length < 70) ∧
    (∃ out, submitLesson lesson1 user0 freshProgress answersWrong1 0 0 = .ok out ∧
      out.isCompleted = false ∧
      out.user = user0 ∧
      out.progress.status = .failed ∧
      out.progress.score =
        roundDiv (100 * countCorrect lesson1 answersWrong1) lesson1.exercises.length ∧
      ∃ tail, out.progress.exerciseResults = freshProgress.exerciseResults ++ tail) :=
  ⟨⟨rfl, by decide, by decide, by decide⟩,
    submit_failed_frame lesson1 user0 freshProgress answersWrong1 0 0 rfl
      (by decide) (by decide) (by decide)⟩

end OstrichTalks
